import Mathlib

/-!
Shallow embedding of the slot-allocation and admission-control engine of the
Smart-Car-Parking-System repository.

Source of truth:
  - src/project/server/routes/employee.js  (drive-up check-in/out, booking
    check-in/out, employee cancellation)
  - src/unnamed/part_000 (server/routes/general.js: POST /locations/bookings)

Modelling conventions:
  - database rows become Lean structures; the three tables become lists inside
    `DBState`; SQL UPDATE ... WHERE becomes `List.map` with a row filter and
    SELECT ... WHERE ... LIMIT-style single-row reads become `List.find?`;
  - timestamps are integers (milliseconds since the epoch, the value of
    `Date.getTime()`); the DATETIME strings the booking table stores are
    order-isomorphic to these integers, which is all the code compares;
  - JavaScript numbers used by the pricing and capacity arithmetic are
    embedded as exact rationals; `Math.floor` and `Math.ceil` become the
    rational floor and ceiling;
  - each route handler runs inside a transaction wrapper that rolls back on a
    thrown rejection, and in every handler all throws happen before the first
    write, so a handler is embedded as a pure function returning
    `Except Rejection (newState, payload)`: an error performs no mutation;
  - license plates are strings; `toUpperCase` and `trim` are embedded over the
    underlying character list (ASCII case mapping and ASCII whitespace, which
    is what license plates exercise).
-/

namespace SmartParking

/-- One row of the `parking_locations` table (the fields the engine reads). -/
structure Location where
  locId : Nat
  total_slots : Int
  available_slots : Int
deriving Repr, DecidableEq

/-- One row of the `bookings` table (the fields the engine reads or writes).
The `status` column is the literal string stored by the code:
`confirmed`, `checked-in`, `completed` or `cancelled`. -/
structure Booking where
  bookingId : Nat
  user_id : Nat
  parking_location_id : Nat
  start_time : Int
  end_time : Int
  status : String
  license_plate_booked : Option String
  checked_in_license_plate : Option String
  actual_entry_time : Option Int
  actual_exit_time : Option Int
  final_cost : Option ℚ
deriving Repr, DecidableEq

/-- One row of the `vehicle_sessions` table. `exit_time = none` means the
session is open (the vehicle is still parked). -/
structure VehicleSession where
  sessId : Nat
  parking_location_id : Nat
  license_plate : String
  entry_time : Int
  exit_time : Option Int
  cost : Option ℚ
  booking_id : Option Nat
  employee_id_check_in : Option Nat
  employee_id_check_out : Option Nat
deriving Repr, DecidableEq

/-- The mutable database state the admission-control engine touches:
the three tables, the auto-increment counters of the two tables the engine
inserts into, and the `settings.hourly_rate` row (0 when the row is absent,
matching `parseFloat(rateSetting?.hourly_rate || "0")`). -/
structure DBState where
  locations : List Location
  bookings : List Booking
  sessions : List VehicleSession
  nextBookingId : Nat
  nextSessionId : Nat
  hourly_rate : ℚ
deriving Repr, DecidableEq

/-- A rejected request: the HTTP status class and message the route sends.
`serverError` also covers the paths where the JavaScript would throw a
TypeError that the catch-all turns into a 500. -/
inductive Rejection where
  | badRequest : String → Rejection
  | notFound : String → Rejection
  | forbidden : String → Rejection
  | serverError : String → Rejection
deriving Repr, DecidableEq

/-- ASCII whitespace, the characters `trim` strips from license plates. -/
def jsIsSpace (c : Char) : Bool :=
  c = ' ' || c = '\t' || c = '\n' || c = '\r'

/-- Embedding of `String.prototype.trim` (ASCII whitespace). -/
def jsTrim (s : String) : String :=
  ⟨((s.data.dropWhile jsIsSpace).reverse.dropWhile jsIsSpace).reverse⟩

/-- Embedding of `String.prototype.toUpperCase` (ASCII case mapping). -/
def jsToUpperCase (s : String) : String :=
  ⟨s.data.map Char.toUpper⟩

/-- `licensePlate.toUpperCase().trim()` — the plate normalization both
check-in routes apply before storing or looking up a plate. -/
def cleanLicensePlate (s : String) : String :=
  jsTrim (jsToUpperCase s)

/-- Rational ceiling, the embedding of `Math.ceil`. -/
def ceilQ (q : ℚ) : Int :=
  -(Rat.floor (-q))

/-- `durationMs > 0 ? Math.max(0.25, durationMs / (1000*60*60)) : 0`
with `durationMs = exit.getTime() - entry.getTime()`. -/
def durationHoursQ (entryMs exitMs : Int) : ℚ :=
  let durationMs : Int := exitMs - entryMs
  if 0 < durationMs then max (1/4 : ℚ) ((durationMs : ℚ) / 3600000) else 0

/-- The checkout cost computation shared verbatim by POST /checkout and
POST /bookings/:bookingId/checkout:
`cost = 0; if (hourlyRate > 0 && durationHours > 0) cost = ceil(durationHours*hourlyRate*100)/100`. -/
def sessionCost (entryMs exitMs : Int) (hourlyRate : ℚ) : ℚ :=
  let durationHours := durationHoursQ entryMs exitMs
  if 0 < hourlyRate ∧ 0 < durationHours then
    ((ceilQ (durationHours * hourlyRate * 100) : ℚ)) / 100
  else 0

/-- `Math.floor(location.total_slots * 0.70)` — the soft booking capacity. -/
def bookingCapacityOf (total_slots : Int) : Int :=
  Rat.floor ((total_slots : ℚ) * (7/10))

/-- The `SELECT COUNT(*) FROM bookings WHERE parking_location_id = ? AND
status IN (confirmed, checked-in) AND start_time < newEnd AND end_time > newStart`
count the booking-creation route runs against the capacity. -/
def overlapCount (st : DBState) (locId : Nat) (startTime endTime : Int) : Nat :=
  st.bookings.countP fun b =>
    b.parking_location_id == locId
    && (b.status == "confirmed" || b.status == "checked-in")
    && b.start_time < endTime && b.end_time > startTime

/-- `SELECT ... FROM parking_locations WHERE id = ?` (id is the primary key,
so the first matching row is the row). -/
def findLocation (st : DBState) (locId : Nat) : Option Location :=
  st.locations.find? (fun l => l.locId == locId)

/-- `UPDATE parking_locations SET available_slots = available_slots - 1
WHERE id = ? AND available_slots > 0` — the guarded decrement both check-in
routes issue. -/
def decrementGuarded (ls : List Location) (locId : Nat) : List Location :=
  ls.map fun l =>
    if l.locId = locId ∧ 0 < l.available_slots then
      { l with available_slots := l.available_slots - 1 }
    else l

/-- `UPDATE parking_locations SET available_slots = LEAST(?, available_slots + 1)
WHERE id = ?`, with `?` the total_slots the route read from the location row. -/
def clampIncrement (ls : List Location) (locId : Nat) (total : Int) : List Location :=
  ls.map fun l =>
    if l.locId = locId then
      { l with available_slots := min total (l.available_slots + 1) }
    else l

/-- Does some open session at `locId` carry exactly the plate `plate`?
Embeds `SELECT id FROM vehicle_sessions WHERE license_plate = ? AND
parking_location_id = ? AND exit_time IS NULL`. -/
def hasOpenSession (st : DBState) (plate : String) (locId : Nat) : Bool :=
  st.sessions.any fun s =>
    s.license_plate == plate && s.parking_location_id == locId && s.exit_time.isNone

/-- The row `INSERT INTO vehicle_sessions (parking_location_id, license_plate,
entry_time, [booking_id,] employee_id_check_in)` inserts at a check-in; the
drive-up route passes no booking_id (null), the booking route passes the
booking id. -/
def newSessionRow (st : DBState) (locId : Nat) (clean : String)
    (bookingId : Option Nat) (employeeId : Nat) (now : Int) : VehicleSession :=
  { sessId := st.nextSessionId
    parking_location_id := locId
    license_plate := clean
    entry_time := now
    exit_time := none
    cost := none
    booking_id := bookingId
    employee_id_check_in := some employeeId
    employee_id_check_out := none }

/-- POST /checkin (employee.js lines 84-122): drive-up check-in.
Returns the new state and the inserted vehicle-session id. -/
def driveUpCheckIn (st : DBState) (locId : Nat) (licensePlate : String)
    (employeeId : Nat) (now : Int) : Except Rejection (DBState × Nat) :=
  if jsTrim licensePlate = "" then
    .error (.badRequest "License plate is required.")
  else
    let clean := cleanLicensePlate licensePlate
    match findLocation st locId with
    | none => .error (.serverError "Failed to check in vehicle.")
    | some loc =>
      if loc.available_slots ≤ 0 then
        .error (.badRequest "No available parking slots for drive-up.")
      else if hasOpenSession st clean locId then
        .error (.badRequest "Vehicle is already actively parked at this location.")
      else
        .ok ({ st with
                sessions := st.sessions ++ [newSessionRow st locId clean none employeeId now]
                locations := decrementGuarded st.locations locId
                nextSessionId := st.nextSessionId + 1 },
             st.nextSessionId)

/-- POST /checkout (employee.js lines 124-189): drive-up checkout.
Returns the new state and the billed cost. -/
def driveUpCheckOut (st : DBState) (vehicleId : Nat) (locId : Nat)
    (employeeId : Nat) (now : Int) : Except Rejection (DBState × ℚ) :=
  match st.sessions.find? (fun s => s.sessId == vehicleId && s.parking_location_id == locId) with
  | none => .error (.notFound "Vehicle session not found at your location.")
  | some session =>
    if session.exit_time.isSome then
      .error (.badRequest "Vehicle already checked out.")
    else
      match findLocation st session.parking_location_id with
      | none => .error (.serverError "Failed to check out vehicle.")
      | some locRow =>
        let cost := sessionCost session.entry_time now st.hourly_rate
        let sessions := st.sessions.map fun s =>
          if s.sessId = vehicleId then
            { s with exit_time := some now, cost := some cost,
                     employee_id_check_out := some employeeId }
          else s
        let bookings :=
          match session.booking_id with
          | some bid =>
            st.bookings.map fun b =>
              if b.bookingId = bid ∧ b.status = "checked-in" then
                { b with status := "completed", actual_exit_time := some now,
                         final_cost := some cost }
              else b
          | none => st.bookings
        let locations := clampIncrement st.locations session.parking_location_id locRow.total_slots
        .ok ({ st with sessions := sessions, bookings := bookings, locations := locations }, cost)

/-- POST /bookings/:bookingId/checkin (employee.js lines 221-269): an employee
admits a pre-booked vehicle. Returns the new state and the inserted session id.
The route performs no duplicate-open-session lookup. -/
def bookingCheckIn (st : DBState) (bookingId : Nat) (locId : Nat)
    (licensePlate : String) (employeeId : Nat) (now : Int) :
    Except Rejection (DBState × Nat) :=
  if jsTrim licensePlate = "" then
    .error (.badRequest "License plate required for check-in.")
  else
    let clean := cleanLicensePlate licensePlate
    match st.bookings.find? (fun b => b.bookingId == bookingId) with
    | none => .error (.notFound "Booking not found.")
    | some booking =>
      if booking.parking_location_id ≠ locId then
        .error (.forbidden "Booking not for your assigned location.")
      else if booking.status ≠ "confirmed" then
        .error (.badRequest "Booking already in a non-confirmed status. Cannot check-in again.")
      else
        match findLocation st locId with
        | none => .error (.serverError "Failed to check in for booking.")
        | some loc =>
          if loc.available_slots ≤ 0 then
            .error (.badRequest "No physical parking slots currently available, even for bookings.")
          else
            .ok ({ st with
                    sessions := st.sessions ++ [newSessionRow st locId clean (some bookingId) employeeId now]
                    bookings := st.bookings.map fun b =>
                      if b.bookingId = bookingId then
                        { b with status := "checked-in", checked_in_license_plate := some clean,
                                 actual_entry_time := some now }
                      else b
                    locations := decrementGuarded st.locations locId
                    nextSessionId := st.nextSessionId + 1 },
                 st.nextSessionId)

/-- POST /bookings/:bookingId/checkout (employee.js lines 318-377): checkout
of a checked-in booking through its linked open session. -/
def bookingCheckOut (st : DBState) (bookingId : Nat) (locId : Nat)
    (employeeId : Nat) (now : Int) : Except Rejection (DBState × ℚ) :=
  match st.bookings.find? (fun b => b.bookingId == bookingId && b.parking_location_id == locId) with
  | none => .error (.notFound "Booking not found at your location.")
  | some bookingDetails =>
    if bookingDetails.status ≠ "checked-in" then
      .error (.badRequest "Only checked-in bookings can be checked out.")
    else
      match st.sessions.find? (fun s =>
          s.booking_id == some bookingId && s.parking_location_id == locId && s.exit_time.isNone) with
      | none => .error (.serverError "Data inconsistency: Active vehicle session for this booking not found. Cannot proceed with checkout.")
      | some session =>
        match findLocation st locId with
        | none => .error (.serverError "Failed to checkout booking by employee due to server error.")
        | some locRow =>
          let cost := sessionCost session.entry_time now st.hourly_rate
          let sessions := st.sessions.map fun s =>
            if s.sessId = session.sessId then
              { s with exit_time := some now, cost := some cost,
                       employee_id_check_out := some employeeId }
            else s
          let bookings := st.bookings.map fun b =>
            if b.bookingId = bookingId then
              { b with status := "completed", actual_exit_time := some now,
                       final_cost := some cost }
            else b
          let locations := clampIncrement st.locations locId locRow.total_slots
          .ok ({ st with sessions := sessions, bookings := bookings, locations := locations }, cost)

/-- POST /bookings/:bookingId/cancel-by-employee (employee.js lines 271-316).
When the booking was checked-in, every open session linked to it is closed
with cost 0, and the slot count is incremented only when at least one session
row was actually updated. -/
def cancelBookingByEmployee (st : DBState) (bookingId : Nat) (locId : Nat)
    (employeeId : Nat) (now : Int) : Except Rejection DBState :=
  match st.bookings.find? (fun b => b.bookingId == bookingId) with
  | none => .error (.notFound "Booking not found.")
  | some booking =>
    if booking.parking_location_id ≠ locId then
      .error (.forbidden "This booking is not for your assigned location.")
    else if booking.status = "cancelled" ∨ booking.status = "completed" ∨ booking.status = "checked-out" then
      .error (.badRequest "Booking is already terminal and cannot be cancelled.")
    else
      let bookings := st.bookings.map fun b =>
        if b.bookingId = bookingId then { b with status := "cancelled" } else b
      if booking.status = "checked-in" then
        let affectedRows := st.sessions.countP fun s =>
          s.booking_id == some bookingId && s.exit_time.isNone
        let sessions := st.sessions.map fun s =>
          if s.booking_id = some bookingId ∧ s.exit_time = none then
            { s with exit_time := some now, cost := some 0,
                     employee_id_check_out := some employeeId }
          else s
        let locations :=
          match findLocation st locId with
          | some locRow =>
            if 0 < affectedRows then clampIncrement st.locations locId locRow.total_slots
            else st.locations
          | none => st.locations
        .ok { st with bookings := bookings, sessions := sessions, locations := locations }
      else
        .ok { st with bookings := bookings }

/-- The row `INSERT INTO bookings (user_id, parking_location_id, start_time,
end_time, status, license_plate_booked) VALUES (?, ?, ?, ?, confirmed, ?)`
inserts (`licensePlateBooked || null` maps an empty string to null). -/
def newBookingRow (st : DBState) (userId parkingLocationId : Nat)
    (startTime endTime : Int) (licensePlateBooked : Option String) : Booking :=
  { bookingId := st.nextBookingId
    user_id := userId
    parking_location_id := parkingLocationId
    start_time := startTime
    end_time := endTime
    status := "confirmed"
    license_plate_booked :=
      match licensePlateBooked with
      | some p => if p = "" then none else some p
      | none => none
    checked_in_license_plate := none
    actual_entry_time := none
    actual_exit_time := none
    final_cost := none }

/-- POST /locations/bookings (general.js, src/unnamed/part_000 lines 977-1039):
create a new booking. `startTime` and `endTime` are the parsed request
timestamps and `now` the value of `dayjs()` at validation time; the dayjs
validity check is outside the model (inputs are already parsed timestamps).
`ETime.isBefore(STime)` is `endTime < startTime` and `STime.isBefore(dayjs())`
is `startTime < now`. Returns the new state and the inserted booking id. -/
def createBooking (st : DBState) (userId : Nat) (parkingLocationId : Nat)
    (startTime endTime : Int) (licensePlateBooked : Option String) (now : Int) :
    Except Rejection (DBState × Nat) :=
  if endTime < startTime ∨ startTime < now then
    .error (.badRequest "Invalid booking time range or start time is in the past.")
  else
    match findLocation st parkingLocationId with
    | none => .error (.notFound "Parking location not found.")
    | some location =>
      let bookingCapacity : Int := bookingCapacityOf location.total_slots
      let currentOverlappingBookings : Int :=
        (overlapCount st parkingLocationId startTime endTime : Nat)
      if bookingCapacity ≤ currentOverlappingBookings then
        .error (.badRequest "Booking capacity reached. Please try another time or location.")
      else
        .ok ({ st with
                bookings := st.bookings ++ [newBookingRow st userId parkingLocationId startTime endTime licensePlateBooked]
                nextBookingId := st.nextBookingId + 1 },
             st.nextBookingId)

/-! ## Derived forms of the numeric helpers -/

/-- The Rat floor used in the embedding agrees with the Mathlib floor. -/
theorem ratFloor_eq_intFloor (q : ℚ) : Rat.floor q = ⌊q⌋ := by
  rw [Rat.floor_def', Rat.floor_def]

/-- `ceilQ` is the mathematical ceiling. -/
theorem ceilQ_eq_ceil (q : ℚ) : ceilQ q = ⌈q⌉ := by
  rw [ceilQ, ratFloor_eq_intFloor, Int.floor_neg, neg_neg]

/-- `floor(total_slots * 0.70)` in closed integer form. -/
theorem bookingCapacityOf_eq (t : Int) : bookingCapacityOf t = (7 * t) / 10 := by
  rw [bookingCapacityOf, ratFloor_eq_intFloor,
    show ((t:ℚ) * (7/10)) = ((7*t : ℤ):ℚ) / ((10:ℕ):ℚ) by push_cast; ring,
    Rat.floor_intCast_div_natCast]
  norm_num

/-! ## List helper lemmas -/

/-- Mapping a row update that does not change whether a row matches commutes
with the first-match lookup. -/
theorem find?_map_pred {α : Type} (f : α → α) (p : α → Bool)
    (hp : ∀ a, p (f a) = p a) :
    ∀ l : List α, (l.map f).find? p = (l.find? p).map f := by
  intro l
  induction l with
  | nil => rfl
  | cons a as ih =>
    rw [List.map_cons, List.find?_cons, List.find?_cons, hp a]
    cases hpa : p a
    · exact ih
    · rfl

/-- A first match for a weaker row filter that itself satisfies a stronger
filter is also the first match for the stronger filter. -/
theorem find?_of_stronger_pred {α : Type} {p q : α → Bool} {l : List α} {b : α}
    (hfind : l.find? p = some b) (hq : ∀ a, q a = true → p a = true)
    (hb : q b = true) : l.find? q = some b := by
  induction l with
  | nil => simp at hfind
  | cons a as ih =>
    rw [List.find?_cons] at hfind ⊢
    cases hpa : p a
    · have hqa : q a = false := by
        cases hqa : q a
        · rfl
        · rw [hq a hqa] at hpa; cases hpa
      rw [hpa] at hfind
      rw [hqa]
      exact ih hfind
    · rw [hpa] at hfind
      cases hfind
      rw [hb]

/-! ## State invariants -/

/-- The physical-pool invariant: `0 <= available_slots <= total_slots`
for every location row. -/
def slotsInvariant (st : DBState) : Prop :=
  ∀ l ∈ st.locations, 0 ≤ l.available_slots ∧ l.available_slots ≤ l.total_slots

/-- Location ids are a primary key: no two rows share one. -/
def locationIdsNodup (st : DBState) : Prop :=
  (st.locations.map Location.locId).Nodup

/-- No two open vehicle sessions share the same (license_plate, location) pair. -/
def openSessionsUnique (st : DBState) : Prop :=
  ∀ s1 ∈ st.sessions, ∀ s2 ∈ st.sessions,
    s1.exit_time = none → s2.exit_time = none →
    s1.license_plate = s2.license_plate →
    s1.parking_location_id = s2.parking_location_id → s1 = s2

/-- A found location row carries the id it was looked up by. -/
theorem findLocation_id {st : DBState} {locId : Nat} {loc : Location}
    (h : findLocation st locId = some loc) : loc.locId = locId := by
  have := List.find?_some h
  simpa using this

/-- A found location row is a row of the table. -/
theorem findLocation_mem {st : DBState} {locId : Nat} {loc : Location}
    (h : findLocation st locId = some loc) : loc ∈ st.locations :=
  List.mem_of_find?_eq_some h

/-- With distinct location ids, every row carrying the looked-up id is the
found row. -/
theorem findLocation_unique {st : DBState} {locId : Nat} {loc : Location}
    (hnd : locationIdsNodup st) (hfind : findLocation st locId = some loc)
    {l : Location} (hl : l ∈ st.locations) (hid : l.locId = locId) : l = loc := by
  apply List.inj_on_of_nodup_map hnd hl (findLocation_mem hfind)
  rw [hid, findLocation_id hfind]

/-- The guarded decrement keeps every row inside its capacity bounds. -/
theorem decrementGuarded_bounds (ls : List Location) (locId : Nat)
    (h : ∀ l ∈ ls, 0 ≤ l.available_slots ∧ l.available_slots ≤ l.total_slots) :
    ∀ l ∈ decrementGuarded ls locId,
      0 ≤ l.available_slots ∧ l.available_slots ≤ l.total_slots := by
  intro l hl
  rw [decrementGuarded] at hl
  obtain ⟨a, ha, rfl⟩ := List.mem_map.mp hl
  obtain ⟨h0, h1⟩ := h a ha
  by_cases hc : a.locId = locId ∧ 0 < a.available_slots
  · rw [if_pos hc]
    dsimp only
    omega
  · rw [if_neg hc]
    exact ⟨h0, h1⟩

/-- The clamped increment keeps every row inside its capacity bounds when the
clamping bound is the total of the row the route looked up. -/
theorem clampIncrement_inv (st : DBState) (hinv : slotsInvariant st)
    (hnd : locationIdsNodup st) (locId : Nat) (locRow : Location)
    (hfind : findLocation st locId = some locRow) :
    ∀ l ∈ clampIncrement st.locations locId locRow.total_slots,
      0 ≤ l.available_slots ∧ l.available_slots ≤ l.total_slots := by
  intro l hl
  rw [clampIncrement] at hl
  obtain ⟨a, ha, rfl⟩ := List.mem_map.mp hl
  obtain ⟨h0, h1⟩ := hinv a ha
  obtain ⟨hr0, hr1⟩ := hinv locRow (findLocation_mem hfind)
  by_cases hc : a.locId = locId
  · rw [if_pos hc]
    have haeq : a = locRow := findLocation_unique hnd hfind ha hc
    dsimp only
    subst haeq
    omega
  · rw [if_neg hc]
    exact ⟨h0, h1⟩

/-! ## C5 — pricing -/

/-- The pricing function exactly as the spec words it, for comparison with the
code-derived `sessionCost`: durationHours = max(0.25, (exit-entry) in hours)
if exit > entry else 0; cost = ceil(durationHours * hourlyRate * 100) / 100
if hourlyRate > 0 else 0. -/
def specCost (entryMs exitMs : Int) (hourlyRate : ℚ) : ℚ :=
  let durationHours : ℚ :=
    if entryMs < exitMs then max (1/4) (((exitMs - entryMs : Int) : ℚ) / 3600000) else 0
  if 0 < hourlyRate then ((ceilQ (durationHours * hourlyRate * 100) : ℚ)) / 100 else 0

/-- The quarter-hour clamp is positive when the stay has positive length. -/
theorem durationHoursQ_pos {e x : Int} (h : e < x) : 0 < durationHoursQ e x := by
  rw [durationHoursQ]
  rw [if_pos (by omega)]
  have : (0:ℚ) < 1/4 := by norm_num
  exact lt_of_lt_of_le this (le_max_left _ _)

/-- C5: the checkout cost computation is the pure pricing function of the
spec: it equals specCost on all inputs; the 10-minute stay at rate 50 bills
12.50; and a stay with exit before or at entry, or a non-positive rate,
bills 0. -/
theorem pricing_pure_function :
    (∀ e x : Int, ∀ r : ℚ, sessionCost e x r = specCost e x r) ∧
    sessionCost 0 600000 50 = 25/2 ∧
    (∀ e x : Int, ∀ r : ℚ, x ≤ e → sessionCost e x r = 0) ∧
    (∀ e x : Int, ∀ r : ℚ, r ≤ 0 → sessionCost e x r = 0) := by
  have hzero : ∀ r : ℚ, ((ceilQ (0 * r * 100) : ℚ)) / 100 = 0 := by
    intro r
    rw [zero_mul, zero_mul, ceilQ_eq_ceil, Int.ceil_zero]
    norm_num
  refine ⟨?_, ?_, ?_, ?_⟩
  · intro e x r
    rw [sessionCost, specCost, durationHoursQ]
    by_cases hex : e < x
    · rw [if_pos (show (0:Int) < x - e by omega), if_pos hex]
      by_cases hr : 0 < r
      · rw [if_pos ⟨hr, lt_of_lt_of_le (by norm_num) (le_max_left (1/4 : ℚ) _)⟩, if_pos hr]
      · rw [if_neg (fun hc => hr hc.1), if_neg hr]
    · rw [if_neg (show ¬ (0:Int) < x - e by omega), if_neg hex]
      by_cases hr : 0 < r
      · rw [if_neg (fun hc => lt_irrefl (0:ℚ) hc.2), if_pos hr, hzero]
      · rw [if_neg (fun hc => hr hc.1), if_neg hr]
  · rw [sessionCost]
    have hd : durationHoursQ 0 600000 = 1/4 := by norm_num [durationHoursQ]
    rw [hd, if_pos (by constructor <;> norm_num)]
    rw [show (1/4 * 50 * 100 : ℚ) = ((1250:ℤ):ℚ) by norm_num, ceilQ_eq_ceil,
      Int.ceil_intCast]
    norm_num
  · intro e x r hxe
    rw [sessionCost, durationHoursQ]
    rw [if_neg (show ¬ (0:Int) < x - e by omega)]
    rw [if_neg (fun hc => lt_irrefl (0:ℚ) hc.2)]
  · intro e x r hr
    rw [sessionCost]
    rw [if_neg (fun hc => absurd hc.1 (not_lt.mpr hr))]

/-- Witness: the theorem applied at a concrete input. -/
theorem pricing_pure_function_witness : sessionCost 5 5 50 = 0 :=
  pricing_pure_function.2.2.1 5 5 50 (le_refl 5)

/-! ## createBooking branch lemmas (shared) -/

/-- A valid-window request over capacity is rejected with the capacity message. -/
theorem createBooking_capacity_reject (st : DBState) (u l : Nat) (s e : Int)
    (pl : Option String) (now : Int) (loc : Location)
    (hwin : ¬ (e < s ∨ s < now)) (hloc : findLocation st l = some loc)
    (hcap : bookingCapacityOf loc.total_slots ≤ (overlapCount st l s e : Int)) :
    createBooking st u l s e pl now =
      .error (.badRequest "Booking capacity reached. Please try another time or location.") := by
  rw [createBooking.eq_def, if_neg hwin, hloc]
  dsimp only
  rw [if_pos hcap]

/-- A valid-window request under capacity inserts exactly one confirmed
booking row, touching nothing else. -/
theorem createBooking_insert (st : DBState) (u l : Nat) (s e : Int)
    (pl : Option String) (now : Int) (loc : Location)
    (hwin : ¬ (e < s ∨ s < now)) (hloc : findLocation st l = some loc)
    (hcap : (overlapCount st l s e : Int) < bookingCapacityOf loc.total_slots) :
    createBooking st u l s e pl now =
      .ok ({ st with
              bookings := st.bookings ++ [newBookingRow st u l s e pl]
              nextBookingId := st.nextBookingId + 1 },
           st.nextBookingId) := by
  rw [createBooking.eq_def, if_neg hwin, hloc]
  dsimp only
  rw [if_neg (not_le.mpr hcap)]

/-! ## C2 — createBooking admission control -/

/-- C2: on an existing location with a valid window, createBooking rejects
with the capacity message and mutates nothing iff the overlap count reaches
bookingCapacity = floor(total_slots * 0.70), and otherwise inserts exactly
one confirmed booking, leaving every other component of the state (locations,
so in particular available_slots, and sessions) untouched. -/
theorem createBooking_admission (st : DBState) (u l : Nat) (s e : Int)
    (pl : Option String) (now : Int) (loc : Location)
    (hwin : ¬ (e < s ∨ s < now)) (hloc : findLocation st l = some loc) :
    (createBooking st u l s e pl now =
        .error (.badRequest "Booking capacity reached. Please try another time or location.")
      ↔ bookingCapacityOf loc.total_slots ≤ (overlapCount st l s e : Int)) ∧
    ((overlapCount st l s e : Int) < bookingCapacityOf loc.total_slots →
      createBooking st u l s e pl now =
        .ok ({ st with
                bookings := st.bookings ++ [newBookingRow st u l s e pl]
                nextBookingId := st.nextBookingId + 1 },
             st.nextBookingId)) := by
  constructor
  · constructor
    · intro h
      by_contra hc
      rw [createBooking_insert st u l s e pl now loc hwin hloc (not_le.mp hc)] at h
      simp at h
    · intro hc
      exact createBooking_capacity_reject st u l s e pl now loc hwin hloc hc
  · intro hc
    exact createBooking_insert st u l s e pl now loc hwin hloc hc

/-- A small concrete database: one location with 10 slots, nothing else. -/
def exEmpty : DBState :=
  { locations := [{ locId := 1, total_slots := 10, available_slots := 10 }]
    bookings := []
    sessions := []
    nextBookingId := 1
    nextSessionId := 1
    hourly_rate := 50 }

/-- Witness: the C2 theorem applied at a concrete input (empty ledger,
capacity 7, overlap 0), yielding the insert branch. -/
theorem createBooking_admission_witness :
    createBooking exEmpty 2 1 100 200 none 50 =
      .ok ({ exEmpty with
              bookings := exEmpty.bookings ++ [newBookingRow exEmpty 2 1 100 200 none]
              nextBookingId := exEmpty.nextBookingId + 1 },
           exEmpty.nextBookingId) :=
  (createBooking_admission exEmpty 2 1 100 200 none 50
      { locId := 1, total_slots := 10, available_slots := 10 }
      (by decide) rfl).2 (by rw [bookingCapacityOf_eq]; decide)

/-! ## C7 — time-window validation -/

/-- C7 (amended): the validation rejection fires exactly when end < start or
start < now; a window with end = start passes validation and reaches the
capacity check. -/
theorem createBooking_window_validation (st : DBState) (u l : Nat)
    (s e : Int) (pl : Option String) (now : Int) :
    createBooking st u l s e pl now =
        .error (.badRequest "Invalid booking time range or start time is in the past.")
      ↔ (e < s ∨ s < now) := by
  constructor
  · intro h
    by_contra hn
    rw [createBooking.eq_def, if_neg hn] at h
    cases hfind : findLocation st l with
    | none => rw [hfind] at h; simp at h
    | some loc =>
      rw [hfind] at h
      dsimp only at h
      split at h
      · simp at h
      · simp at h
  · intro h
    rw [createBooking.eq_def, if_pos h]

/-- Witness: the amended C7 theorem applied at a concrete input whose start
lies in the past. -/
theorem createBooking_window_validation_witness :
    createBooking exEmpty 2 1 100 200 none 150 =
      .error (.badRequest "Invalid booking time range or start time is in the past.") :=
  (createBooking_window_validation exEmpty 2 1 100 200 none 150).mpr (by decide)

/-- C7 counterexample: a request whose window has end = start (end ≤ start,
which the claim says is rejected with no mutation) passes validation and is
admitted, inserting a booking. -/
theorem createBooking_zero_length_window_admitted :
    createBooking exEmpty 2 1 100 100 none 50 =
      .ok ({ exEmpty with
              bookings := exEmpty.bookings ++ [newBookingRow exEmpty 2 1 100 100 none]
              nextBookingId := exEmpty.nextBookingId + 1 },
           exEmpty.nextBookingId) :=
  createBooking_insert exEmpty 2 1 100 100 none 50
    { locId := 1, total_slots := 10, available_slots := 10 }
    (by decide) rfl (by rw [bookingCapacityOf_eq]; decide)

/-! ## C10 — zero booking capacity -/

/-- C10: when floor(total_slots * 0.70) = 0 (so for total_slots = 1), every
valid-window createBooking request is rejected with the capacity message,
even on an empty ledger: such a location can never accept a booking. -/
theorem zero_capacity_location_unbookable (st : DBState) (u l : Nat)
    (s e : Int) (pl : Option String) (now : Int) (loc : Location)
    (hwin : ¬ (e < s ∨ s < now)) (hloc : findLocation st l = some loc)
    (hcap : bookingCapacityOf loc.total_slots = 0) :
    createBooking st u l s e pl now =
      .error (.badRequest "Booking capacity reached. Please try another time or location.") :=
  createBooking_capacity_reject st u l s e pl now loc hwin hloc
    (by rw [hcap]; exact Int.natCast_nonneg _)

/-- A location with a single physical slot and no bookings at all. -/
def exOneSlot : DBState :=
  { locations := [{ locId := 1, total_slots := 1, available_slots := 1 }]
    bookings := []
    sessions := []
    nextBookingId := 1
    nextSessionId := 1
    hourly_rate := 50 }

/-- Witness: the C10 theorem applied to the one-slot location with an empty
booking ledger. -/
theorem zero_capacity_location_unbookable_witness :
    createBooking exOneSlot 2 1 100 200 none 50 =
      .error (.badRequest "Booking capacity reached. Please try another time or location.") :=
  zero_capacity_location_unbookable exOneSlot 2 1 100 200 none 50
    { locId := 1, total_slots := 1, available_slots := 1 }
    (by decide) rfl (by rw [bookingCapacityOf_eq]; decide)

/-! ## Check-in inversion lemmas (shared) -/

/-- Everything a successful drive-up check-in tells us about its run. -/
theorem driveUpCheckIn_ok {st : DBState} {locId : Nat} {lp : String}
    {emp : Nat} {now : Int} {st' : DBState} {sid : Nat}
    (h : driveUpCheckIn st locId lp emp now = .ok (st', sid)) :
    ∃ loc, findLocation st locId = some loc ∧ ¬ loc.available_slots ≤ 0 ∧
      hasOpenSession st (cleanLicensePlate lp) locId = false ∧
      st' = { st with
               sessions := st.sessions ++ [newSessionRow st locId (cleanLicensePlate lp) none emp now]
               locations := decrementGuarded st.locations locId
               nextSessionId := st.nextSessionId + 1 } ∧
      sid = st.nextSessionId := by
  rw [driveUpCheckIn.eq_def] at h
  by_cases htrim : jsTrim lp = ""
  · rw [if_pos htrim] at h; simp at h
  · rw [if_neg htrim] at h
    cases hloc : findLocation st locId with
    | none => rw [hloc] at h; simp at h
    | some loc =>
      rw [hloc] at h
      dsimp only at h
      by_cases hav : loc.available_slots ≤ 0
      · rw [if_pos hav] at h; simp at h
      · rw [if_neg hav] at h
        cases hdup : hasOpenSession st (cleanLicensePlate lp) locId with
        | true => rw [hdup] at h; simp at h
        | false =>
          rw [hdup] at h
          simp only [Bool.false_eq_true, if_false] at h
          refine ⟨loc, rfl, hav, rfl, ?_, ?_⟩
          · exact (congrArg Prod.fst (Except.ok.inj h)).symm
          · exact (congrArg Prod.snd (Except.ok.inj h)).symm

/-- Everything a successful booking check-in tells us about its run. -/
theorem bookingCheckIn_ok {st : DBState} {bid locId : Nat} {lp : String}
    {emp : Nat} {now : Int} {st' : DBState} {sid : Nat}
    (h : bookingCheckIn st bid locId lp emp now = .ok (st', sid)) :
    ∃ booking loc,
      st.bookings.find? (fun b => b.bookingId == bid) = some booking ∧
      booking.parking_location_id = locId ∧ booking.status = "confirmed" ∧
      findLocation st locId = some loc ∧ ¬ loc.available_slots ≤ 0 ∧
      st' = { st with
               sessions := st.sessions ++ [newSessionRow st locId (cleanLicensePlate lp) (some bid) emp now]
               bookings := st.bookings.map fun b =>
                 if b.bookingId = bid then
                   { b with status := "checked-in",
                            checked_in_license_plate := some (cleanLicensePlate lp),
                            actual_entry_time := some now }
                 else b
               locations := decrementGuarded st.locations locId
               nextSessionId := st.nextSessionId + 1 } ∧
      sid = st.nextSessionId := by
  rw [bookingCheckIn.eq_def] at h
  by_cases htrim : jsTrim lp = ""
  · rw [if_pos htrim] at h; simp at h
  · rw [if_neg htrim] at h
    cases hfind : st.bookings.find? (fun b => b.bookingId == bid) with
    | none => rw [hfind] at h; simp at h
    | some booking =>
      rw [hfind] at h
      dsimp only at h
      by_cases hlocm : booking.parking_location_id ≠ locId
      · rw [if_pos hlocm] at h; simp at h
      · rw [if_neg hlocm] at h
        by_cases hstat : booking.status ≠ "confirmed"
        · rw [if_pos hstat] at h; simp at h
        · rw [if_neg hstat] at h
          cases hloc : findLocation st locId with
          | none => rw [hloc] at h; simp at h
          | some loc =>
            rw [hloc] at h
            dsimp only at h
            by_cases hav : loc.available_slots ≤ 0
            · rw [if_pos hav] at h; simp at h
            · rw [if_neg hav] at h
              refine ⟨booking, loc, rfl, not_not.mp hlocm, not_not.mp hstat, rfl, hav, ?_, ?_⟩
              · exact (congrArg Prod.fst (Except.ok.inj h)).symm
              · exact (congrArg Prod.snd (Except.ok.inj h)).symm

/-! ## C9 — license-plate normalization -/

/-- A state whose only open session is for plate ABC123 at location 1. -/
def exPlate : DBState :=
  { locations := [{ locId := 1, total_slots := 10, available_slots := 5 }]
    bookings := []
    sessions := [{ sessId := 1, parking_location_id := 1, license_plate := "ABC123",
                   entry_time := 0, exit_time := none, cost := none, booking_id := none,
                   employee_id_check_in := some 7, employee_id_check_out := none }]
    nextBookingId := 1
    nextSessionId := 2
    hourly_rate := 50 }

/-- C9: both check-in routes store the plate normalized by
toUpperCase + trim (in the inserted session row and, for the booking route,
in checked_in_license_plate), the drive-up duplicate-open-session lookup is
keyed on the normalized plate, and the plate string with different case and
surrounding whitespace collides with an open session stored for its
normalized form: a drive-up check-in of the raw plate is rejected. -/
theorem checkin_plate_normalization :
    (∀ st locId lp emp now st' sid,
        driveUpCheckIn st locId lp emp now = .ok (st', sid) →
        st'.sessions = st.sessions ++ [newSessionRow st locId (cleanLicensePlate lp) none emp now]) ∧
    (∀ st bid locId lp emp now st' sid,
        bookingCheckIn st bid locId lp emp now = .ok (st', sid) →
        st'.sessions = st.sessions ++ [newSessionRow st locId (cleanLicensePlate lp) (some bid) emp now] ∧
        ∀ b ∈ st'.bookings, b.bookingId = bid →
          b.checked_in_license_plate = some (cleanLicensePlate lp)) ∧
    (∀ st locId lp emp now,
        hasOpenSession st (cleanLicensePlate lp) locId = true →
        ∀ st' sid, driveUpCheckIn st locId lp emp now ≠ .ok (st', sid)) ∧
    cleanLicensePlate " abc123 " = "ABC123" ∧
    driveUpCheckIn exPlate 1 " abc123 " 7 100 =
      .error (.badRequest "Vehicle is already actively parked at this location.") := by
  refine ⟨?_, ?_, ?_, by decide, by rfl⟩
  · intro st locId lp emp now st' sid h
    obtain ⟨loc, -, -, -, hst, -⟩ := driveUpCheckIn_ok h
    rw [hst]
  · intro st bid locId lp emp now st' sid h
    obtain ⟨booking, loc, -, -, -, -, -, hst, -⟩ := bookingCheckIn_ok h
    constructor
    · rw [hst]
    · intro b hb hbid
      rw [hst] at hb
      obtain ⟨a, ha, rfl⟩ := List.mem_map.mp hb
      by_cases hc : a.bookingId = bid
      · rw [if_pos hc]
      · rw [if_neg hc] at hbid ⊢
        exact absurd hbid hc
  · intro st locId lp emp now hdup st' sid h
    obtain ⟨loc, -, -, hfalse, -, -⟩ := driveUpCheckIn_ok h
    rw [hdup] at hfalse
    cases hfalse

/-- Witness: the normalization collision applied at a concrete input. -/
theorem checkin_plate_normalization_witness :
    driveUpCheckIn exPlate 1 " abc123 " 7 100 ≠ .ok (exPlate, 2) :=
  checkin_plate_normalization.2.2.1 exPlate 1 " abc123 " 7 100 (by decide) exPlate 2

/-! ## Checkout and cancellation inversion lemmas (shared) -/

/-- Everything a successful drive-up checkout tells us about its run. -/
theorem driveUpCheckOut_ok {st : DBState} {vid locId emp : Nat} {now : Int}
    {st' : DBState} {c : ℚ}
    (h : driveUpCheckOut st vid locId emp now = .ok (st', c)) :
    ∃ session locRow,
      st.sessions.find? (fun s => s.sessId == vid && s.parking_location_id == locId) = some session ∧
      session.exit_time = none ∧
      findLocation st session.parking_location_id = some locRow ∧
      c = sessionCost session.entry_time now st.hourly_rate ∧
      st' = { st with
               sessions := st.sessions.map fun s =>
                 if s.sessId = vid then
                   { s with exit_time := some now,
                            cost := some (sessionCost session.entry_time now st.hourly_rate),
                            employee_id_check_out := some emp }
                 else s
               bookings :=
                 match session.booking_id with
                 | some bid =>
                   st.bookings.map fun b =>
                     if b.bookingId = bid ∧ b.status = "checked-in" then
                       { b with status := "completed", actual_exit_time := some now,
                                final_cost := some (sessionCost session.entry_time now st.hourly_rate) }
                     else b
                 | none => st.bookings
               locations := clampIncrement st.locations session.parking_location_id locRow.total_slots } := by
  rw [driveUpCheckOut.eq_def] at h
  cases hfind : st.sessions.find? (fun s => s.sessId == vid && s.parking_location_id == locId) with
  | none => rw [hfind] at h; simp at h
  | some session =>
    rw [hfind] at h
    dsimp only at h
    by_cases hex : session.exit_time.isSome
    · rw [if_pos hex] at h; simp at h
    · rw [if_neg hex] at h
      cases hloc : findLocation st session.parking_location_id with
      | none => rw [hloc] at h; simp at h
      | some locRow =>
        rw [hloc] at h
        dsimp only at h
        refine ⟨session, locRow, rfl, Option.not_isSome_iff_eq_none.mp hex, hloc,
          (congrArg Prod.snd (Except.ok.inj h)).symm,
          (congrArg Prod.fst (Except.ok.inj h)).symm⟩

/-- Everything a successful booking checkout tells us about its run. -/
theorem bookingCheckOut_ok {st : DBState} {bid locId emp : Nat} {now : Int}
    {st' : DBState} {c : ℚ}
    (h : bookingCheckOut st bid locId emp now = .ok (st', c)) :
    ∃ bookingDetails session locRow,
      st.bookings.find? (fun b => b.bookingId == bid && b.parking_location_id == locId) = some bookingDetails ∧
      bookingDetails.status = "checked-in" ∧
      st.sessions.find? (fun s =>
        s.booking_id == some bid && s.parking_location_id == locId && s.exit_time.isNone) = some session ∧
      findLocation st locId = some locRow ∧
      c = sessionCost session.entry_time now st.hourly_rate ∧
      st' = { st with
               sessions := st.sessions.map fun s =>
                 if s.sessId = session.sessId then
                   { s with exit_time := some now,
                            cost := some (sessionCost session.entry_time now st.hourly_rate),
                            employee_id_check_out := some emp }
                 else s
               bookings := st.bookings.map fun b =>
                 if b.bookingId = bid then
                   { b with status := "completed", actual_exit_time := some now,
                            final_cost := some (sessionCost session.entry_time now st.hourly_rate) }
                 else b
               locations := clampIncrement st.locations locId locRow.total_slots } := by
  rw [bookingCheckOut.eq_def] at h
  cases hfind : st.bookings.find? (fun b => b.bookingId == bid && b.parking_location_id == locId) with
  | none => rw [hfind] at h; simp at h
  | some bookingDetails =>
    rw [hfind] at h
    dsimp only at h
    by_cases hstat : bookingDetails.status ≠ "checked-in"
    · rw [if_pos hstat] at h; simp at h
    · rw [if_neg hstat] at h
      cases hsess : st.sessions.find? (fun s =>
          s.booking_id == some bid && s.parking_location_id == locId && s.exit_time.isNone) with
      | none => rw [hsess] at h; simp at h
      | some session =>
        rw [hsess] at h
        dsimp only at h
        cases hloc : findLocation st locId with
        | none => rw [hloc] at h; simp at h
        | some locRow =>
          rw [hloc] at h
          dsimp only at h
          refine ⟨bookingDetails, session, locRow, rfl, not_not.mp hstat, rfl, rfl,
            (congrArg Prod.snd (Except.ok.inj h)).symm,
            (congrArg Prod.fst (Except.ok.inj h)).symm⟩

/-- Everything a successful employee cancellation tells us about its run. -/
theorem cancelBookingByEmployee_ok {st : DBState} {bid locId emp : Nat} {now : Int}
    {st' : DBState}
    (h : cancelBookingByEmployee st bid locId emp now = .ok st') :
    ∃ booking,
      st.bookings.find? (fun b => b.bookingId == bid) = some booking ∧
      booking.parking_location_id = locId ∧
      ¬ (booking.status = "cancelled" ∨ booking.status = "completed" ∨ booking.status = "checked-out") ∧
      ((booking.status = "checked-in" ∧
        st' = { st with
                 bookings := st.bookings.map fun b =>
                   if b.bookingId = bid then { b with status := "cancelled" } else b
                 sessions := st.sessions.map fun s =>
                   if s.booking_id = some bid ∧ s.exit_time = none then
                     { s with exit_time := some now, cost := some 0,
                              employee_id_check_out := some emp }
                   else s
                 locations :=
                   match findLocation st locId with
                   | some locRow =>
                     if 0 < st.sessions.countP (fun s => s.booking_id == some bid && s.exit_time.isNone) then
                       clampIncrement st.locations locId locRow.total_slots
                     else st.locations
                   | none => st.locations }) ∨
       (booking.status ≠ "checked-in" ∧
        st' = { st with
                 bookings := st.bookings.map fun b =>
                   if b.bookingId = bid then { b with status := "cancelled" } else b })) := by
  rw [cancelBookingByEmployee.eq_def] at h
  cases hfind : st.bookings.find? (fun b => b.bookingId == bid) with
  | none => rw [hfind] at h; simp at h
  | some booking =>
    rw [hfind] at h
    dsimp only at h
    by_cases hlocm : booking.parking_location_id ≠ locId
    · rw [if_pos hlocm] at h; simp at h
    · rw [if_neg hlocm] at h
      by_cases hterm : booking.status = "cancelled" ∨ booking.status = "completed" ∨ booking.status = "checked-out"
      · rw [if_pos hterm] at h; simp at h
      · rw [if_neg hterm] at h
        by_cases hci : booking.status = "checked-in"
        · rw [if_pos hci] at h
          exact ⟨booking, rfl, not_not.mp hlocm, hterm,
            .inl ⟨hci, (Except.ok.inj h).symm⟩⟩
        · rw [if_neg hci] at h
          exact ⟨booking, rfl, not_not.mp hlocm, hterm,
            .inr ⟨hci, (Except.ok.inj h).symm⟩⟩

/-- Everything a successful booking creation tells us about the state shape. -/
theorem createBooking_ok_shape {st : DBState} {u l : Nat} {s e : Int}
    {pl : Option String} {now : Int} {st' : DBState} {bi : Nat}
    (h : createBooking st u l s e pl now = .ok (st', bi)) :
    st'.locations = st.locations ∧ st'.sessions = st.sessions := by
  rw [createBooking.eq_def] at h
  by_cases hwin : e < s ∨ s < now
  · rw [if_pos hwin] at h; simp at h
  · rw [if_neg hwin] at h
    cases hloc : findLocation st l with
    | none => rw [hloc] at h; simp at h
    | some loc =>
      rw [hloc] at h
      dsimp only at h
      by_cases hcap : bookingCapacityOf loc.total_slots ≤ ((overlapCount st l s e : Nat) : Int)
      · rw [if_pos hcap] at h; simp at h
      · rw [if_neg hcap] at h
        obtain ⟨h2, -⟩ := Prod.mk.inj (Except.ok.inj h)
        rw [← h2]
        exact ⟨rfl, rfl⟩

/-! ## C3 — the physical-pool invariant -/

/-- C3: every engine operation preserves 0 ≤ available_slots ≤ total_slots:
the two check-ins decrement only under the available_slots > 0 guard, the
three slot-freeing operations (drive-up checkout, booking checkout, employee
cancellation of an active stay) increment clamped by LEAST to total_slots,
and booking creation does not touch the physical pool at all. -/
theorem slots_invariant_preserved (st : DBState)
    (hinv : slotsInvariant st) (hnd : locationIdsNodup st) :
    (∀ locId lp emp now st' sid,
      driveUpCheckIn st locId lp emp now = .ok (st', sid) → slotsInvariant st') ∧
    (∀ vid locId emp now st' c,
      driveUpCheckOut st vid locId emp now = .ok (st', c) → slotsInvariant st') ∧
    (∀ bid locId lp emp now st' sid,
      bookingCheckIn st bid locId lp emp now = .ok (st', sid) → slotsInvariant st') ∧
    (∀ bid locId emp now st' c,
      bookingCheckOut st bid locId emp now = .ok (st', c) → slotsInvariant st') ∧
    (∀ bid locId emp now st',
      cancelBookingByEmployee st bid locId emp now = .ok st' → slotsInvariant st') ∧
    (∀ u l s e pl now st' bi,
      createBooking st u l s e pl now = .ok (st', bi) → slotsInvariant st') := by
  refine ⟨?_, ?_, ?_, ?_, ?_, ?_⟩
  · intro locId lp emp now st' sid h
    obtain ⟨loc, -, -, -, rfl, -⟩ := driveUpCheckIn_ok h
    exact decrementGuarded_bounds st.locations locId hinv
  · intro vid locId emp now st' c h
    obtain ⟨session, locRow, -, -, hloc, -, rfl⟩ := driveUpCheckOut_ok h
    exact clampIncrement_inv st hinv hnd session.parking_location_id locRow hloc
  · intro bid locId lp emp now st' sid h
    obtain ⟨booking, loc, -, -, -, -, -, rfl, -⟩ := bookingCheckIn_ok h
    exact decrementGuarded_bounds st.locations locId hinv
  · intro bid locId emp now st' c h
    obtain ⟨bd, session, locRow, -, -, -, hloc, -, rfl⟩ := bookingCheckOut_ok h
    exact clampIncrement_inv st hinv hnd locId locRow hloc
  · intro bid locId emp now st' h
    obtain ⟨booking, -, -, -, hcase⟩ := cancelBookingByEmployee_ok h
    rcases hcase with ⟨-, rfl⟩ | ⟨-, rfl⟩
    · intro l hl
      cases hloc : findLocation st locId with
      | none =>
        rw [hloc] at hl
        dsimp only at hl
        exact hinv l hl
      | some locRow =>
        rw [hloc] at hl
        dsimp only at hl
        by_cases hcnt : 0 < st.sessions.countP (fun s => s.booking_id == some bid && s.exit_time.isNone)
        · rw [if_pos hcnt] at hl
          exact clampIncrement_inv st hinv hnd locId locRow hloc l hl
        · rw [if_neg hcnt] at hl
          exact hinv l hl
    · exact hinv
  · intro u l s e pl now st' bi h
    obtain ⟨hl, -⟩ := createBooking_ok_shape h
    intro x hx
    rw [hl] at hx
    exact hinv x hx

/-- Witness: the C3 theorem applied at a concrete state through the
booking-creation conjunct. -/
theorem slots_invariant_preserved_witness :
    slotsInvariant { exEmpty with
                      bookings := exEmpty.bookings ++ [newBookingRow exEmpty 2 1 100 200 none]
                      nextBookingId := exEmpty.nextBookingId + 1 } :=
  (slots_invariant_preserved exEmpty
      (show ∀ l ∈ exEmpty.locations, 0 ≤ l.available_slots ∧ l.available_slots ≤ l.total_slots by decide)
      (show (exEmpty.locations.map Location.locId).Nodup by decide)).2.2.2.2.2 2 1 100 200 none 50
    _ exEmpty.nextBookingId
    (createBooking_insert exEmpty 2 1 100 200 none 50
      { locId := 1, total_slots := 10, available_slots := 10 }
      (by decide) rfl (by rw [bookingCapacityOf_eq]; decide))

/-! ## C4 — checkout idempotence -/

/-- The session update written by a drive-up checkout does not change the
fields the session lookup filters on. -/
theorem checkoutUpdate_preserves_filter (vid locId emp : Nat) (now : Int) (c : ℚ) :
    ∀ a : VehicleSession,
      ((fun s => s.sessId == vid && s.parking_location_id == locId)
        (if a.sessId = vid then
          { a with exit_time := some now, cost := some c,
                   employee_id_check_out := some emp }
         else a)) =
      ((fun s => s.sessId == vid && s.parking_location_id == locId) a) := by
  intro a
  by_cases hc : a.sessId = vid
  · rw [if_pos hc]
  · rw [if_neg hc]

/-- C4: a vehicle session can be closed exactly once. A first checkout of an
open session succeeds and stamps exit_time on the session; a second checkout
of the same session id is then rejected with the already-checked-out conflict
(an error, which in this embedding performs no mutation: every route throws
before its first write). -/
theorem checkout_exactly_once (st : DBState) (vid locId emp emp2 : Nat)
    (now now2 : Int) (session : VehicleSession)
    (hfind : st.sessions.find? (fun s => s.sessId == vid && s.parking_location_id == locId) = some session)
    (hopen : session.exit_time = none)
    (locRow : Location)
    (hloc : findLocation st session.parking_location_id = some locRow) :
    ∃ st' c, driveUpCheckOut st vid locId emp now = .ok (st', c) ∧
      (∀ s ∈ st'.sessions, s.sessId = vid → s.exit_time = some now) ∧
      driveUpCheckOut st' vid locId emp2 now2 =
        .error (.badRequest "Vehicle already checked out.") := by
  have hsid : session.sessId = vid := by
    have := List.find?_some hfind
    simp only [Bool.and_eq_true, beq_iff_eq] at this
    exact this.1
  refine ⟨{ st with
             sessions := st.sessions.map fun s =>
               if s.sessId = vid then
                 { s with exit_time := some now,
                          cost := some (sessionCost session.entry_time now st.hourly_rate),
                          employee_id_check_out := some emp }
               else s
             bookings :=
               match session.booking_id with
               | some bid =>
                 st.bookings.map fun b =>
                   if b.bookingId = bid ∧ b.status = "checked-in" then
                     { b with status := "completed", actual_exit_time := some now,
                              final_cost := some (sessionCost session.entry_time now st.hourly_rate) }
                   else b
               | none => st.bookings
             locations := clampIncrement st.locations session.parking_location_id locRow.total_slots },
          sessionCost session.entry_time now st.hourly_rate, ?_, ?_, ?_⟩
  · rw [driveUpCheckOut.eq_def, hfind]
    dsimp only
    rw [if_neg (by rw [hopen]; simp), hloc]
  · intro s hs hsid2
    obtain ⟨a, ha, rfl⟩ := List.mem_map.mp hs
    by_cases hc : a.sessId = vid
    · rw [if_pos hc]
    · rw [if_neg hc] at hsid2 ⊢
      exact absurd hsid2 hc
  · rw [driveUpCheckOut.eq_def]
    have hfind2 :
        (st.sessions.map fun s =>
            if s.sessId = vid then
              { s with exit_time := some now,
                       cost := some (sessionCost session.entry_time now st.hourly_rate),
                       employee_id_check_out := some emp }
            else s).find?
          (fun s => s.sessId == vid && s.parking_location_id == locId) =
        some { session with exit_time := some now,
                            cost := some (sessionCost session.entry_time now st.hourly_rate),
                            employee_id_check_out := some emp } := by
      rw [find?_map_pred _ _
        (checkoutUpdate_preserves_filter vid locId emp now
          (sessionCost session.entry_time now st.hourly_rate)), hfind]
      dsimp only [Option.map]
      rw [if_pos hsid]
    rw [hfind2]
    dsimp only
    exact if_pos rfl

/-- Witness: the C4 theorem applied at the concrete one-open-session state. -/
theorem checkout_exactly_once_witness :
    ∃ st' c, driveUpCheckOut exPlate 1 1 7 600000 = .ok (st', c) ∧
      (∀ s ∈ st'.sessions, s.sessId = 1 → s.exit_time = some 600000) ∧
      driveUpCheckOut st' 1 1 9 700000 =
        .error (.badRequest "Vehicle already checked out.") :=
  checkout_exactly_once exPlate 1 1 7 9 600000 700000
    { sessId := 1, parking_location_id := 1, license_plate := "ABC123",
      entry_time := 0, exit_time := none, cost := none, booking_id := none,
      employee_id_check_in := some 7, employee_id_check_out := none }
    rfl rfl
    { locId := 1, total_slots := 10, available_slots := 5 } rfl

/-! ## C8 — cancellation by employee -/

/-- The open-session count of the cancel route is positive exactly when a
linked open session exists. -/
theorem cancel_countP_pos_iff (st : DBState) (bid : Nat) :
    0 < st.sessions.countP (fun s => s.booking_id == some bid && s.exit_time.isNone) ↔
      ∃ s ∈ st.sessions, s.booking_id = some bid ∧ s.exit_time = none := by
  rw [List.countP_pos_iff]
  simp [Option.isNone_iff_eq_none]

/-- C8: employee cancellation rejects a terminal booking (cancelled or
completed — the concrete statuses the ledger can hold); a confirmed booking
is just set to cancelled; a checked-in booking is set to cancelled and its
linked open sessions are closed with cost forced to 0, the slot count being
incremented (clamped by LEAST to total_slots) exactly when such a session
existed, and skipped — with the request still succeeding — when none did. -/
theorem cancel_by_employee_semantics (st : DBState) (bid locId emp : Nat) (now : Int)
    (booking : Booking)
    (hfind : st.bookings.find? (fun b => b.bookingId == bid) = some booking)
    (hlocm : booking.parking_location_id = locId)
    (_hfsm : booking.status = "confirmed" ∨ booking.status = "checked-in" ∨
            booking.status = "completed" ∨ booking.status = "cancelled") :
    ((booking.status = "cancelled" ∨ booking.status = "completed") →
      cancelBookingByEmployee st bid locId emp now =
        .error (.badRequest "Booking is already terminal and cannot be cancelled.")) ∧
    (booking.status = "confirmed" →
      cancelBookingByEmployee st bid locId emp now =
        .ok { st with
               bookings := st.bookings.map fun b =>
                 if b.bookingId = bid then { b with status := "cancelled" } else b }) ∧
    (booking.status = "checked-in" →
      ∀ locRow, findLocation st locId = some locRow →
        ((∃ s ∈ st.sessions, s.booking_id = some bid ∧ s.exit_time = none) →
          cancelBookingByEmployee st bid locId emp now =
            .ok { st with
                   bookings := st.bookings.map fun b =>
                     if b.bookingId = bid then { b with status := "cancelled" } else b
                   sessions := st.sessions.map fun s =>
                     if s.booking_id = some bid ∧ s.exit_time = none then
                       { s with exit_time := some now, cost := some 0,
                                employee_id_check_out := some emp }
                     else s
                   locations := clampIncrement st.locations locId locRow.total_slots }) ∧
        ((¬ ∃ s ∈ st.sessions, s.booking_id = some bid ∧ s.exit_time = none) →
          cancelBookingByEmployee st bid locId emp now =
            .ok { st with
                   bookings := st.bookings.map fun b =>
                     if b.bookingId = bid then { b with status := "cancelled" } else b
                   sessions := st.sessions.map fun s =>
                     if s.booking_id = some bid ∧ s.exit_time = none then
                       { s with exit_time := some now, cost := some 0,
                                employee_id_check_out := some emp }
                     else s })) := by
  refine ⟨?_, ?_, ?_⟩
  · intro hterm
    rw [cancelBookingByEmployee.eq_def, hfind]
    dsimp only
    rw [if_neg (fun hne => hne hlocm)]
    rcases hterm with h | h
    · rw [if_pos (Or.inl h)]
    · rw [if_pos (Or.inr (Or.inl h))]
  · intro hconf
    rw [cancelBookingByEmployee.eq_def, hfind]
    dsimp only
    rw [if_neg (fun hne => hne hlocm)]
    rw [if_neg (by rw [hconf]; decide)]
    rw [if_neg (by rw [hconf]; decide)]
  · intro hci locRow hlocRow
    constructor
    · intro hex
      rw [cancelBookingByEmployee.eq_def, hfind]
      dsimp only
      rw [if_neg (fun hne => hne hlocm)]
      rw [if_neg (by rw [hci]; decide)]
      rw [if_pos hci, hlocRow]
      dsimp only
      rw [if_pos ((cancel_countP_pos_iff st bid).mpr hex)]
    · intro hnex
      rw [cancelBookingByEmployee.eq_def, hfind]
      dsimp only
      rw [if_neg (fun hne => hne hlocm)]
      rw [if_neg (by rw [hci]; decide)]
      rw [if_pos hci, hlocRow]
      dsimp only
      rw [if_neg (fun hpos => hnex ((cancel_countP_pos_iff st bid).mp hpos))]

/-- A checked-in booking with its linked open session. -/
def exCancel : DBState :=
  { locations := [{ locId := 1, total_slots := 10, available_slots := 5 }]
    bookings := [{ bookingId := 1, user_id := 2, parking_location_id := 1,
                   start_time := 0, end_time := 1000, status := "checked-in",
                   license_plate_booked := some "ABC123",
                   checked_in_license_plate := some "ABC123",
                   actual_entry_time := some 10, actual_exit_time := none,
                   final_cost := none }]
    sessions := [{ sessId := 1, parking_location_id := 1, license_plate := "ABC123",
                   entry_time := 10, exit_time := none, cost := none, booking_id := some 1,
                   employee_id_check_in := some 7, employee_id_check_out := none }]
    nextBookingId := 2
    nextSessionId := 2
    hourly_rate := 50 }

/-- Witness: the C8 theorem applied to a concrete checked-in booking with a
linked open session. -/
theorem cancel_by_employee_semantics_witness :
    cancelBookingByEmployee exCancel 1 1 9 500 =
      .ok { exCancel with
             bookings := exCancel.bookings.map fun b =>
               if b.bookingId = 1 then { b with status := "cancelled" } else b
             sessions := exCancel.sessions.map fun s =>
               if s.booking_id = some 1 ∧ s.exit_time = none then
                 { s with exit_time := some 500, cost := some 0,
                          employee_id_check_out := some 9 }
               else s
             locations := clampIncrement exCancel.locations 1
               ({ locId := 1, total_slots := 10, available_slots := 5 } : Location).total_slots } :=
  ((cancel_by_employee_semantics exCancel 1 1 9 500
      { bookingId := 1, user_id := 2, parking_location_id := 1,
        start_time := 0, end_time := 1000, status := "checked-in",
        license_plate_booked := some "ABC123",
        checked_in_license_plate := some "ABC123",
        actual_entry_time := some 10, actual_exit_time := none,
        final_cost := none }
      rfl rfl (Or.inr (Or.inl rfl))).2.2 rfl
      { locId := 1, total_slots := 10, available_slots := 5 } rfl).1
    ⟨{ sessId := 1, parking_location_id := 1, license_plate := "ABC123",
       entry_time := 10, exit_time := none, cost := none, booking_id := some 1,
       employee_id_check_in := some 7, employee_id_check_out := none },
     by decide, rfl, rfl⟩

/-! ## C1 — open-session uniqueness at check-in -/

/-- When the duplicate lookup comes back empty, no open session in the table
carries the looked-up plate at the looked-up location. -/
theorem hasOpenSession_eq_false {st : DBState} {plate : String} {locId : Nat}
    (h : hasOpenSession st plate locId = false) :
    ∀ s ∈ st.sessions, s.exit_time = none → s.license_plate = plate →
      s.parking_location_id ≠ locId := by
  intro s hs he hp hl
  rw [hasOpenSession, List.any_eq_false] at h
  have := h s hs
  simp [hp, hl, he] at this

/-- C1 (amended): driveUpCheckIn preserves open-session uniqueness — the
duplicate is rejected at check-in time by the open-session lookup on the
(cleaned plate, location) pair. (bookingCheckIn performs no such lookup and
does not preserve the invariant; see the counterexample.) -/
theorem driveUpCheckIn_preserves_uniqueness (st : DBState)
    (hu : openSessionsUnique st) :
    ∀ locId lp emp now st' sid,
      driveUpCheckIn st locId lp emp now = .ok (st', sid) → openSessionsUnique st' := by
  intro locId lp emp now st' sid h
  obtain ⟨loc, -, -, hdup, rfl, -⟩ := driveUpCheckIn_ok h
  intro s1 h1 s2 h2 he1 he2 hp hl
  have hnew := hasOpenSession_eq_false hdup
  rcases List.mem_append.mp h1 with h1o | h1n
  · rcases List.mem_append.mp h2 with h2o | h2n
    · exact hu s1 h1o s2 h2o he1 he2 hp hl
    · exfalso
      have h2eq : s2 = newSessionRow st locId (cleanLicensePlate lp) none emp now :=
        List.mem_singleton.mp h2n
      apply hnew s1 h1o he1
      · rw [hp, h2eq]; rfl
      · rw [hl, h2eq]; rfl
  · have h1eq : s1 = newSessionRow st locId (cleanLicensePlate lp) none emp now :=
      List.mem_singleton.mp h1n
    rcases List.mem_append.mp h2 with h2o | h2n
    · exfalso
      apply hnew s2 h2o he2
      · rw [← hp, h1eq]; rfl
      · rw [← hl, h1eq]; rfl
    · rw [h1eq, List.mem_singleton.mp h2n]

/-- Witness: uniqueness preservation applied at a concrete drive-up check-in. -/
theorem driveUpCheckIn_preserves_uniqueness_witness :
    openSessionsUnique { exPlate with
                          sessions := exPlate.sessions ++ [newSessionRow exPlate 1 (cleanLicensePlate "XYZ9") none 7 100]
                          locations := decrementGuarded exPlate.locations 1
                          nextSessionId := exPlate.nextSessionId + 1 } :=
  driveUpCheckIn_preserves_uniqueness exPlate
    (show ∀ s1 ∈ exPlate.sessions, ∀ s2 ∈ exPlate.sessions,
        s1.exit_time = none → s2.exit_time = none →
        s1.license_plate = s2.license_plate →
        s1.parking_location_id = s2.parking_location_id → s1 = s2 by decide)
    1 "XYZ9" 7 100 _ exPlate.nextSessionId (by rfl)

/-- A confirmed booking at a location where the same plate already has an
open drive-up session. -/
def exDup : DBState :=
  { locations := [{ locId := 1, total_slots := 10, available_slots := 5 }]
    bookings := [{ bookingId := 1, user_id := 2, parking_location_id := 1,
                   start_time := 0, end_time := 1000, status := "confirmed",
                   license_plate_booked := some "ABC123",
                   checked_in_license_plate := none,
                   actual_entry_time := none, actual_exit_time := none,
                   final_cost := none }]
    sessions := [{ sessId := 1, parking_location_id := 1, license_plate := "ABC123",
                   entry_time := 0, exit_time := none, cost := none, booking_id := none,
                   employee_id_check_in := some 7, employee_id_check_out := none }]
    nextBookingId := 2
    nextSessionId := 2
    hourly_rate := 50 }

/-- C1 counterexample: in a state satisfying the invariant, a booking
check-in for a plate that already has an open session at the same location
succeeds (the route performs no duplicate lookup) and leaves two open
sessions with the same (license_plate, location_id) pair. -/
theorem bookingCheckIn_creates_duplicate_open_session :
    openSessionsUnique exDup ∧
    (∃ p : DBState × Nat, bookingCheckIn exDup 1 1 "ABC123" 9 100 = .ok p ∧
      ¬ openSessionsUnique p.1) := by
  constructor
  · exact show ∀ s1 ∈ exDup.sessions, ∀ s2 ∈ exDup.sessions,
        s1.exit_time = none → s2.exit_time = none →
        s1.license_plate = s2.license_plate →
        s1.parking_location_id = s2.parking_location_id → s1 = s2 by decide
  · refine ⟨({ exDup with
                sessions := exDup.sessions ++ [newSessionRow exDup 1 (cleanLicensePlate "ABC123") (some 1) 9 100]
                bookings := exDup.bookings.map fun b =>
                  if b.bookingId = 1 then
                    { b with status := "checked-in",
                             checked_in_license_plate := some (cleanLicensePlate "ABC123"),
                             actual_entry_time := some 100 }
                  else b
                locations := decrementGuarded exDup.locations 1
                nextSessionId := exDup.nextSessionId + 1 }, 2), by rfl, ?_⟩
    intro hcontra
    have h1 : ({ sessId := 1, parking_location_id := 1, license_plate := "ABC123",
                 entry_time := 0, exit_time := none, cost := none, booking_id := none,
                 employee_id_check_in := some 7, employee_id_check_out := none } : VehicleSession) =
              newSessionRow exDup 1 (cleanLicensePlate "ABC123") (some 1) 9 100 := by
      apply hcontra
      · exact List.mem_append.mpr (Or.inl (by decide))
      · exact List.mem_append.mpr (Or.inr (by decide))
      · rfl
      · rfl
      · rfl
      · rfl
    exact absurd (congrArg VehicleSession.sessId h1) (by decide)

/-! ## C6 — check-in / checkout round trip -/

/-- Closed success form of bookingCheckOut, given the three row lookups. -/
theorem bookingCheckOut_runs (st : DBState) (bid locId emp : Nat) (now : Int)
    (bd : Booking) (session : VehicleSession) (locRow : Location)
    (hb : st.bookings.find? (fun b => b.bookingId == bid && b.parking_location_id == locId) = some bd)
    (hstat : bd.status = "checked-in")
    (hs : st.sessions.find? (fun s =>
      s.booking_id == some bid && s.parking_location_id == locId && s.exit_time.isNone) = some session)
    (hl : findLocation st locId = some locRow) :
    bookingCheckOut st bid locId emp now =
      .ok ({ st with
              sessions := st.sessions.map fun s =>
                if s.sessId = session.sessId then
                  { s with exit_time := some now,
                           cost := some (sessionCost session.entry_time now st.hourly_rate),
                           employee_id_check_out := some emp }
                else s
              bookings := st.bookings.map fun b =>
                if b.bookingId = bid then
                  { b with status := "completed", actual_exit_time := some now,
                           final_cost := some (sessionCost session.entry_time now st.hourly_rate) }
                else b
              locations := clampIncrement st.locations locId locRow.total_slots },
           sessionCost session.entry_time now st.hourly_rate) := by
  rw [bookingCheckOut.eq_def, hb]
  dsimp only
  rw [if_neg (not_not_intro hstat), hs]
  dsimp only
  rw [hl]

/-- C6: starting from a state satisfying the capacity invariant, if a booking
check-in succeeds, then the booking checkout performed next succeeds and
returns the available_slots of that location to exactly its value before the
check-in (the guarded decrement is undone by the clamped increment). -/
theorem booking_roundtrip_restores_slots (st : DBState) (bid locId : Nat)
    (lp : String) (emp emp2 : Nat) (now now2 : Int)
    (hinv : slotsInvariant st)
    (st1 : DBState) (sid : Nat)
    (hin : bookingCheckIn st bid locId lp emp now = .ok (st1, sid))
    (loc : Location) (hloc : findLocation st locId = some loc) :
    ∃ st2 c, bookingCheckOut st1 bid locId emp2 now2 = .ok (st2, c) ∧
      ∃ loc2, findLocation st2 locId = some loc2 ∧
        loc2.available_slots = loc.available_slots := by
  obtain ⟨booking, loc', hbfind, hbloc, hbstat, hloc', hav, rfl, -⟩ := bookingCheckIn_ok hin
  rw [hloc] at hloc'
  injection hloc' with hlocs
  subst hlocs
  have hbid2 : booking.bookingId = bid := by
    have := List.find?_some hbfind
    simpa using this
  have hlocid : loc.locId = locId := findLocation_id hloc
  have havlt : 0 < loc.available_slots := not_le.mp hav
  -- the booking row update of the check-in
  have hq_pres : ∀ b : Booking,
      ((fun b => b.bookingId == bid && b.parking_location_id == locId)
        (if b.bookingId = bid then
          { b with status := "checked-in",
                   checked_in_license_plate := some (cleanLicensePlate lp),
                   actual_entry_time := some now }
         else b)) =
      ((fun b => b.bookingId == bid && b.parking_location_id == locId) b) := by
    intro b
    by_cases hc : b.bookingId = bid
    · rw [if_pos hc]
    · rw [if_neg hc]
  have hfind_q : st.bookings.find?
      (fun b => b.bookingId == bid && b.parking_location_id == locId) = some booking := by
    apply find?_of_stronger_pred hbfind
    · intro a ha
      exact (Bool.and_eq_true _ _ |>.mp ha).1
    · simp [hbid2, hbloc]
  -- the checked-in booking row the checkout will find
  have hfind_q1 :
      (st.bookings.map fun b =>
        if b.bookingId = bid then
          { b with status := "checked-in",
                   checked_in_license_plate := some (cleanLicensePlate lp),
                   actual_entry_time := some now }
        else b).find?
        (fun b => b.bookingId == bid && b.parking_location_id == locId) =
      some { booking with status := "checked-in",
                          checked_in_license_plate := some (cleanLicensePlate lp),
                          actual_entry_time := some now } := by
    rw [find?_map_pred _ _ hq_pres, hfind_q]
    dsimp only [Option.map]
    rw [if_pos hbid2]
  -- the open session the checkout will find
  have hnewmatch :
      ((fun s => s.booking_id == some bid && s.parking_location_id == locId && s.exit_time.isNone)
        (newSessionRow st locId (cleanLicensePlate lp) (some bid) emp now)) = true := by
    simp [newSessionRow]
  have hsome : ((st.sessions ++ [newSessionRow st locId (cleanLicensePlate lp) (some bid) emp now]).find?
      (fun s => s.booking_id == some bid && s.parking_location_id == locId && s.exit_time.isNone)).isSome := by
    rw [List.find?_isSome]
    exact ⟨newSessionRow st locId (cleanLicensePlate lp) (some bid) emp now,
      List.mem_append.mpr (Or.inr (List.mem_singleton.mpr rfl)), hnewmatch⟩
  obtain ⟨sess2, hsess2⟩ := Option.isSome_iff_exists.mp hsome
  -- the location row after the guarded decrement
  have hp_pres_dec : ∀ a : Location,
      ((fun l => l.locId == locId)
        (if a.locId = locId ∧ 0 < a.available_slots then
          { a with available_slots := a.available_slots - 1 }
         else a)) =
      ((fun l => l.locId == locId) a) := by
    intro a
    by_cases hc : a.locId = locId ∧ 0 < a.available_slots
    · rw [if_pos hc]
    · rw [if_neg hc]
  have hloc1 : findLocation
      { st with
         sessions := st.sessions ++ [newSessionRow st locId (cleanLicensePlate lp) (some bid) emp now]
         bookings := st.bookings.map fun b =>
           if b.bookingId = bid then
             { b with status := "checked-in",
                      checked_in_license_plate := some (cleanLicensePlate lp),
                      actual_entry_time := some now }
           else b
         locations := decrementGuarded st.locations locId
         nextSessionId := st.nextSessionId + 1 } locId =
      some { loc with available_slots := loc.available_slots - 1 } := by
    show (decrementGuarded st.locations locId).find? (fun l => l.locId == locId) = _
    rw [decrementGuarded, find?_map_pred _ _ hp_pres_dec]
    rw [show st.locations.find? (fun l => l.locId == locId) = some loc from hloc]
    dsimp only [Option.map]
    rw [if_pos ⟨hlocid, havlt⟩]
  -- run the checkout
  refine ⟨_, _, bookingCheckOut_runs _ bid locId emp2 now2
    { booking with status := "checked-in",
                   checked_in_license_plate := some (cleanLicensePlate lp),
                   actual_entry_time := some now }
    sess2 { loc with available_slots := loc.available_slots - 1 }
    hfind_q1 rfl hsess2 hloc1, ?_⟩
  -- the location row after the clamped increment
  have hp_pres_clamp : ∀ a : Location,
      ((fun l => l.locId == locId)
        (if a.locId = locId then
          { a with available_slots := min loc.total_slots (a.available_slots + 1) }
         else a)) =
      ((fun l => l.locId == locId) a) := by
    intro a
    by_cases hc : a.locId = locId
    · rw [if_pos hc]
    · rw [if_neg hc]
  have hloc2 : (clampIncrement (decrementGuarded st.locations locId) locId
      loc.total_slots).find?
        (fun l => l.locId == locId) =
      some { loc with available_slots := min loc.total_slots (loc.available_slots - 1 + 1) } := by
    rw [clampIncrement, find?_map_pred _ _ hp_pres_clamp]
    rw [show (decrementGuarded st.locations locId).find? (fun l => l.locId == locId) =
          some { loc with available_slots := loc.available_slots - 1 } by
      rw [decrementGuarded, find?_map_pred _ _ hp_pres_dec]
      rw [show st.locations.find? (fun l => l.locId == locId) = some loc from hloc]
      dsimp only [Option.map]
      rw [if_pos ⟨hlocid, havlt⟩]]
    dsimp only [Option.map]
    rw [if_pos hlocid]
  refine ⟨_, hloc2, ?_⟩
  have hle : loc.available_slots ≤ loc.total_slots := (hinv loc (findLocation_mem hloc)).2
  dsimp only
  omega

/-- Witness: the round trip applied at a concrete state with one confirmed
booking. -/
theorem booking_roundtrip_restores_slots_witness :
    ∃ st2 c, bookingCheckOut
        ({ exDup with
            sessions := exDup.sessions ++ [newSessionRow exDup 1 (cleanLicensePlate "ABC123") (some 1) 9 100]
            bookings := exDup.bookings.map fun b =>
              if b.bookingId = 1 then
                { b with status := "checked-in",
                         checked_in_license_plate := some (cleanLicensePlate "ABC123"),
                         actual_entry_time := some 100 }
              else b
            locations := decrementGuarded exDup.locations 1
            nextSessionId := exDup.nextSessionId + 1 }) 1 1 9 700000 = .ok (st2, c) ∧
      ∃ loc2, findLocation st2 1 = some loc2 ∧
        loc2.available_slots =
          ({ locId := 1, total_slots := 10, available_slots := 5 } : Location).available_slots :=
  booking_roundtrip_restores_slots exDup 1 1 "ABC123" 9 9 100 700000
    (show ∀ l ∈ exDup.locations, 0 ≤ l.available_slots ∧ l.available_slots ≤ l.total_slots by decide)
    _ exDup.nextSessionId (by rfl)
    { locId := 1, total_slots := 10, available_slots := 5 } rfl

end SmartParking
